import Mathlib

/-!
# GyanForge client — shallow embedding and verification

This file embeds, in Lean 4, the client-side logic of the GyanForge React
frontend (`src/frontend/src/services/apiService.js`,
`src/frontend/src/services/apiService.old.js`,
`src/frontend/src/components/Dashboard.js`, the `EnhancedModules` component
and the `LearningPage`/`QuizPage` components) and proves properties of the
observable behavior of that code: quiz grading and scoring, the 401
response interceptor, request payload construction, error normalization,
module-list deletion, topic validation, the quiz countdown step function,
and the JWT expiry check.

JavaScript idioms are modelled explicitly:
* an absent value (`undefined`/`null`) is `Option.none`;
* `NaN` produced by `0/0` is modelled by an `Option` result (`none` = NaN);
* the `a || b` operator over strings is `jsSelect` (empty string is falsy);
* thrown exceptions inside `try`/`catch` are `Option.none` results.
-/

namespace GyanForge

/-- A minimal JSON value, used to model the request bodies the client
builds with object literals / `JSON.stringify`. -/
inductive JVal where
  | jstr : String → JVal
  | jnum : Int → JVal
  | jnull : JVal
  deriving DecidableEq, Repr

/-- Request body built by `generateModule` in the current `apiService.js`:
the object literal sent to `POST /api/v1/modules/generate` is
`{ prompt: prompt, background_knowledge: backgroundKnowledge, user_id: null }`.
The `difficulty` and `duration` parameters of the method are not referenced
in the body. -/
def generateModuleBody (prompt : String) (difficulty : String) (duration : Int)
    (backgroundKnowledge : String) : List (String × JVal) :=
  [("prompt", JVal.jstr prompt),
   ("background_knowledge", JVal.jstr backgroundKnowledge),
   ("user_id", JVal.jnull)]

/-- Request body built by `generateModule` in `apiService.old.js`
(non-mock path): the object literal
`{ user_id: user.id, prompt, difficulty, duration }`. -/
def generateModuleBodyOld (userId : String) (prompt : String) (difficulty : String)
    (duration : Int) : List (String × JVal) :=
  [("user_id", JVal.jstr userId),
   ("prompt", JVal.jstr prompt),
   ("difficulty", JVal.jstr difficulty),
   ("duration", JVal.jnum duration)]

/-- Request body built by `EnhancedModules.createModule`:
`JSON.stringify(newModuleData)` where `newModuleData = { topic, difficulty }`. -/
def enhancedModuleBody (topic : String) (difficulty : String) : List (String × JVal) :=
  [("topic", JVal.jstr topic),
   ("difficulty", JVal.jstr difficulty)]

/-- The options of the difficulty `<select>` in the Dashboard create-module
form (`Dashboard.js`). -/
def dashboardDifficultyOptions : List String := ["easy", "medium", "hard"]

/-- The options of the difficulty `<select>` in the `EnhancedModules`
create-module form. -/
def enhancedDifficultyOptions : List String := ["Beginner", "Intermediate", "Advanced"]

/-! ## Quiz grading (apiService.old.js mock branch, LearningPage) -/

/-- Whether `needle` occurs as a contiguous sublist of `hay`. -/
def listIncludes (needle : List Char) : List Char → Bool
  | [] => needle.isEmpty
  | c :: cs => needle.isPrefixOf (c :: cs) || listIncludes needle cs

/-- JavaScript `hay.includes(needle)` on strings: substring containment. -/
def strIncludes (hay needle : String) : Bool :=
  listIncludes needle.toList hay.toList

/-- A quiz question as stored on a Module
(`{ question, options, correct_answer }`). -/
structure QuizQuestion where
  question : String
  options : List String
  correct_answer : String
  deriving DecidableEq, Repr

/-- The quiz questions of the first mock module (`mockModules[0]`,
"Introduction to React Hooks") in `apiService.old.js`. -/
def mockModule1Questions : List QuizQuestion :=
  [⟨"What React version introduced Hooks?",
    ["React 16.6", "React 16.8", "React 17.0", "React 18.0"], "React 16.8"⟩,
   ⟨"Which hook is used for managing component state?",
    ["useEffect", "useState", "useContext", "useReducer"], "useState"⟩,
   ⟨"What is the main benefit of React Hooks?",
    ["Better performance", "Reusable stateful logic", "Smaller bundle size",
     "TypeScript support"], "Reusable stateful logic"⟩]

/-- The filter predicate in `apiService.old.js` `submitQuiz` (mock branch):
`answer.includes('correct') || answer.includes('React 16.8') || answer.includes('useState')`.
An answer value passing this filter is counted as correct. -/
def mockAnswerCounted (answer : String) : Bool :=
  strIncludes answer "correct" || strIncludes answer "React 16.8" ||
    strIncludes answer "useState"

/-- Count `Object.values(answers).filter(...).length` from the mock
`submitQuiz`: the number of submitted answer values counted correct by the
filter. The answers map is modelled as an association list
question-key → answer. -/
def mockCorrectCount (answers : List (String × String)) : Nat :=
  (answers.map Prod.snd).countP (fun a => mockAnswerCounted a)

/-- Count `Object.keys(answers).length` from the mock `submitQuiz`. -/
def mockTotalQuestions (answers : List (String × String)) : Nat :=
  answers.length

/-- Score `(correctCount / totalQuestions) * 100` from the mock `submitQuiz`.
In JavaScript this is floating-point division: for an empty answers map it is
`0 / 0 = NaN`, modelled here as `none`; otherwise the value is the exact
rational the claims quantify over. -/
def mockScore (answers : List (String × String)) : Option ℚ :=
  if mockTotalQuestions answers = 0 then none
  else some (((mockCorrectCount answers : ℚ) / (mockTotalQuestions answers : ℚ)) * 100)

/-- Correctness judgement in `LearningPage.handleAnswerSelect`:
`const isCorrect = answer === question.correct_answer` — the chat-quiz
feedback judges a selected answer by exact string equality with the
stored correct answer of the question. -/
def lpIsCorrect (answer : String) (question : QuizQuestion) : Bool :=
  answer == question.correct_answer

/-! ## Client state, 401 interceptor, logout (apiService.js) -/

/-- The JSON error payload of a failed response (`error.response.data`),
with the `detail` and `message` fields the client inspects. `some ""` is a
present-but-empty string (falsy in JavaScript). -/
structure ErrData where
  detail : Option String
  message : Option String
  deriving DecidableEq, Repr

/-- Failed response `error.response`: status code plus optional data
payload. -/
structure ErrResponse where
  status : Nat
  data : Option ErrData
  deriving DecidableEq, Repr

/-- An axios transport error: `response` is absent for network-level
failures; `message` is the transport error's own message. -/
structure AxiosError where
  response : Option ErrResponse
  message : String
  deriving DecidableEq, Repr

/-- A successful axios response (only the status is relevant here). -/
structure AxiosResponse where
  status : Nat
  deriving DecidableEq, Repr

/-- The browser-visible client state the interceptor touches: the stored
`authToken` in localStorage and `window.location.href`. -/
structure ClientState where
  authToken : Option String
  location : String
  deriving DecidableEq, Repr

/-- Logout in the current `ApiService`:
`localStorage.removeItem('authToken')` and nothing else. -/
def logout (st : ClientState) : ClientState :=
  { st with authToken := none }

/-- The response interceptor's error handler in the `ApiService`
constructor: on `error.response?.status === 401` it calls `this.logout()`
and sets `window.location.href = '/login'`; in every case it returns
`Promise.reject(error)`. -/
def onResponseError (st : ClientState) (e : AxiosError) :
    ClientState × Except AxiosError AxiosResponse :=
  if e.response.map ErrResponse.status = some 401 then
    ({ logout st with location := "/login" }, Except.error e)
  else
    (st, Except.error e)

/-- The response interceptor's success handler: `(response) => response`,
leaving the client state untouched. -/
def onResponseOk (st : ClientState) (r : AxiosResponse) :
    ClientState × Except AxiosError AxiosResponse :=
  (st, Except.ok r)

/-! ## Error normalization (apiService.js _handleError) -/

/-- JavaScript `a || b` where `a` is an optional string and `b` a string:
`b` is chosen when `a` is `undefined` or the empty string (falsy). -/
def jsSelect (a : Option String) (b : String) : String :=
  match a with
  | none => b
  | some s => if s = "" then b else s

/-- Optional chain `error.response?.data?.detail`. -/
def respDetail (e : AxiosError) : Option String :=
  e.response.bind (fun r => r.data.bind (fun d => d.detail))

/-- Optional chain `error.response?.data?.message`. -/
def respMessage (e : AxiosError) : Option String :=
  e.response.bind (fun r => r.data.bind (fun d => d.message))

/-- The normalized Error object produced by `_handleError`: its `message`,
`status` and `originalError` fields. -/
structure ErrObject where
  message : String
  status : Option Nat
  originalError : AxiosError
  deriving DecidableEq, Repr

/-- Error normalization `ApiService._handleError`: message is
`error.response?.data?.detail || error.response?.data?.message || error.message || defaultMessage`,
`status` is `error.response?.status`, `originalError` is the error itself. -/
def handleError (e : AxiosError) (defaultMessage : String) : ErrObject :=
  { message := jsSelect (respDetail e)
      (jsSelect (respMessage e) (jsSelect (some e.message) defaultMessage)),
    status := e.response.map ErrResponse.status,
    originalError := e }

/-! ## Module list deletion (Dashboard.js) -/

/-- A module as held in the Dashboard's `modules` state (the fields the
delete handler can observe). -/
structure Module where
  id : String
  title : String
  content : String
  difficulty : String
  deriving DecidableEq, Repr

/-- State update of `Dashboard.handleDeleteModule` after a successful
`deleteModule` call:
`setModules(prev => prev.filter(module => module.id !== moduleId))`. -/
def removeModule (modules : List Module) (moduleId : String) : List Module :=
  modules.filter (fun m => !(m.id == moduleId))

/-! ## Topic validation (EnhancedModules.createModule) -/

/-- JavaScript `String.prototype.trim`: strip leading and trailing
whitespace characters. -/
def jsTrim (s : String) : String :=
  String.mk (((s.toList.dropWhile Char.isWhitespace).reverse.dropWhile
    Char.isWhitespace).reverse)

/-- The `EnhancedModules` component state consulted by `createModule`
(`newModuleData` plus the `error` message state). -/
structure EnhancedState where
  topic : String
  difficulty : String
  error : String
  deriving DecidableEq, Repr

/-- Validation and request dispatch of `EnhancedModules.createModule`:
on `if (!newModuleData.topic.trim())` it sets the error
`Please enter a topic` and returns without issuing a request; otherwise it
POSTs `JSON.stringify(newModuleData)` to `/api/v1/modules/generate`. The
second component is the request body sent, `none` when no request is
issued. -/
def createModule (st : EnhancedState) : EnhancedState × Option (List (String × JVal)) :=
  if jsTrim st.topic = "" then
    ({ st with error := "Please enter a topic" }, none)
  else
    ({ st with error := "" }, some (enhancedModuleBody st.topic st.difficulty))

/-! ## Quiz countdown (QuizPage) -/

/-- The `QuizPage` state the timer effect and submit handler touch:
`quizStarted`, `timeLeft`, `submitted` and the collected `answers`
(question index → selected answer). -/
structure QuizPageState where
  quizStarted : Bool
  timeLeft : Nat
  submitted : Bool
  answers : List (Nat × String)
  deriving DecidableEq, Repr

/-- The guard of the timer `useEffect`:
`if (quizStarted && timeLeft > 0 && !submitted)` an interval is installed;
otherwise none is (and the effect's cleanup `clearInterval(timer)` has
removed any previous one). -/
def timerActive (s : QuizPageState) : Bool :=
  s.quizStarted && decide (0 < s.timeLeft) && !s.submitted

/-- Submission handler `QuizPage.handleSubmit` (success path): calls
`apiService.submitQuiz(moduleId, answers)` with the answers collected so
far, then sets `submitted = true` and `quizStarted = false`. Returns the
new state and the submitted answers map. -/
def handleSubmit (s : QuizPageState) : QuizPageState × List (Nat × String) :=
  ({ s with submitted := true, quizStarted := false }, s.answers)

/-- One firing of the interval callback:
`setTimeLeft(prev => { if (prev <= 1) { handleSubmit(); return 0; } return prev - 1; })`.
Returns the new state and `some` submitted answers when `handleSubmit`
fired, `none` otherwise. -/
def timerTick (s : QuizPageState) : QuizPageState × Option (List (Nat × String)) :=
  if s.timeLeft ≤ 1 then
    let (s', sub) := handleSubmit s
    ({ s' with timeLeft := 0 }, some sub)
  else
    ({ s with timeLeft := s.timeLeft - 1 }, none)

/-! ## JWT expiry check (apiService.js isAuthenticated) -/

/-- A JavaScript value as obtained from `JSON.parse` plus `undefined`,
restricted to the shapes a JWT payload can take here. -/
inductive JsVal where
  | jsUndefined : JsVal
  | jsNull : JsVal
  | jsBool : Bool → JsVal
  | jsNum : Int → JsVal
  | jsStr : String → JsVal
  | jsObj : List (String × JsVal) → JsVal

/-- JavaScript property access `v[k]` used as `payload.exp`: the field of
an object, `undefined` on a missing field or a non-object. -/
def jsGet (v : JsVal) (k : String) : JsVal :=
  match v with
  | JsVal.jsObj fields =>
      match fields.lookup k with
      | some x => x
      | none => JsVal.jsUndefined
  | _ => JsVal.jsUndefined

/-- JavaScript numeric coercion as used by `payload.exp * 1000`
(`ToNumber`): `none` models `NaN`. String coercion is restricted to
integer literals (JWT `exp` values are integers). -/
def jsToNumber : JsVal → Option Int
  | JsVal.jsUndefined => none
  | JsVal.jsNull => some 0
  | JsVal.jsBool b => some (if b then 1 else 0)
  | JsVal.jsNum n => some n
  | JsVal.jsStr s =>
      let t := jsTrim s
      if t = "" then some 0 else t.toInt?
  | JsVal.jsObj _ => none

/-- Split a character list at every occurrence of `sep`, keeping empty
groups, as JavaScript `split` does for a one-character separator. -/
def jsSplitOnChar (sep : Char) : List Char → List (List Char)
  | [] => [[]]
  | c :: cs =>
      let r := jsSplitOnChar sep cs
      if c = sep then [] :: r
      else
        match r with
        | [] => [[c]]
        | g :: gs => (c :: g) :: gs

/-- JavaScript `token.split('.')`. -/
def jsSplitDot (s : String) : List String :=
  (jsSplitOnChar '.' s.toList).map String.mk

/-- The browser/runtime primitives `isAuthenticated` composes with: `atob`
(base64 decode, `none` = throws) and `JSON.parse` (`none` = throws), plus
`Date.now()` in milliseconds. -/
structure JwtEnv where
  atob : String → Option String
  parseJson : String → Option JsVal
  now : Int

/-- Token check `ApiService.isAuthenticated`: reads `authToken` from
localStorage (`stored`, `none` when absent); `!token` short-circuits to
`false` (empty string is falsy); otherwise
`JSON.parse(atob(token.split('.')[1]))` inside `try`/`catch` — any failure
(missing payload segment, base64 error, parse error) yields `false`; on
success it returns `payload.exp * 1000 > Date.now()` (`NaN` comparisons
are `false`). -/
def isAuthenticated (env : JwtEnv) (stored : Option String) : Bool :=
  match stored with
  | none => false
  | some token =>
      if token = "" then false
      else
        match (jsSplitDot token)[1]? with
        | none => false
        | some seg =>
            match env.atob seg with
            | none => false
            | some decoded =>
                match env.parseJson decoded with
                | none => false
                | some payload =>
                    match jsToNumber (jsGet payload "exp") with
                    | none => false
                    | some n => decide (n * 1000 > env.now)

/-- Demonstration runtime environment: identity base64 and a parser that
returns a payload object with integer `exp` field 2 (seconds), at clock
time 0 ms. -/
def jwtEnvDemo : JwtEnv :=
  { atob := fun s => some s,
    parseJson := fun _ => some (JsVal.jsObj [("exp", JsVal.jsNum 2)]),
    now := 0 }

/-! ## Theorems -/

/-- Helper: a string all of whose characters are whitespace trims to the
empty string. -/
theorem jsTrim_of_all_whitespace (s : String)
    (h : s.toList.all Char.isWhitespace = true) : jsTrim s = "" := by
  have h1 : s.toList.dropWhile Char.isWhitespace = [] := by
    rw [List.dropWhile_eq_nil_iff]
    intro x hx
    exact List.all_eq_true.1 h x hx
  unfold jsTrim
  rw [h1]
  rfl

/-- C1 (counterexample): the mock `submitQuiz` score on the empty answers
map is `0 / 0 = NaN` (modelled `none`), which does not lie in `[0, 100]` —
so "for every answers map the returned score lies in [0,100]" fails at the
empty map. -/
theorem mockScore_empty_is_nan :
    mockScore [] = none
    ∧ ¬∃ q : ℚ, mockScore ([] : List (String × String)) = some q ∧ 0 ≤ q ∧ q ≤ 100 := by
  refine ⟨rfl, ?_⟩
  rintro ⟨q, hq, -, -⟩
  simp [mockScore, mockTotalQuestions] at hq

/-- C1 (amended): for every non-empty answers map the mock `submitQuiz`
score is a rational in `[0, 100]`; an all-counted-correct submission
scores exactly 100 and an all-counted-incorrect one exactly 0. -/
theorem mockScore_bounds_and_extremes (answers : List (String × String))
    (h : answers ≠ []) :
    (∃ q : ℚ, mockScore answers = some q ∧ 0 ≤ q ∧ q ≤ 100)
    ∧ ((∀ p ∈ answers, mockAnswerCounted p.2 = true) → mockScore answers = some 100)
    ∧ ((∀ p ∈ answers, mockAnswerCounted p.2 = false) → mockScore answers = some 0) := by
  have hlen : answers.length ≠ 0 := by
    simpa [List.length_eq_zero] using h
  have hql : (0 : ℚ) < (answers.length : ℚ) := by
    exact_mod_cast Nat.pos_of_ne_zero hlen
  have hscore : mockScore answers =
      some (((mockCorrectCount answers : ℚ) / (answers.length : ℚ)) * 100) := by
    simp [mockScore, mockTotalQuestions, hlen]
  refine ⟨⟨_, hscore, ?_, ?_⟩, ?_, ?_⟩
  · positivity
  · have hc : mockCorrectCount answers ≤ answers.length := by
      have := List.countP_le_length (l := answers.map Prod.snd)
        (p := fun a => mockAnswerCounted a)
      simpa [mockCorrectCount] using this
    have h1 : (mockCorrectCount answers : ℚ) / (answers.length : ℚ) ≤ 1 :=
      (div_le_one hql).2 (by exact_mod_cast hc)
    calc ((mockCorrectCount answers : ℚ) / (answers.length : ℚ)) * 100
        ≤ 1 * 100 := by
          exact mul_le_mul_of_nonneg_right h1 (by norm_num)
      _ = 100 := by norm_num
  · intro hall
    have hcnt : mockCorrectCount answers = answers.length := by
      have hlm : (answers.map Prod.snd).length = answers.length := List.length_map _ _
      unfold mockCorrectCount
      rw [← hlm, List.countP_eq_length]
      intro a ha
      rcases List.mem_map.1 ha with ⟨p, hp, rfl⟩
      exact hall p hp
    rw [hscore, hcnt]
    congr 1
    rw [div_self (ne_of_gt hql)]
    norm_num
  · intro hnone
    have hcnt : mockCorrectCount answers = 0 := by
      unfold mockCorrectCount
      rw [List.countP_eq_zero]
      intro a ha
      rcases List.mem_map.1 ha with ⟨p, hp, rfl⟩
      simp [hnone p hp]
    rw [hscore, hcnt]
    norm_num

/-- C1 (witness): the amended statement evaluated at the concrete
one-answer map `{"0": "React 16.8"}`. -/
theorem mockScore_bounds_witness :
    (∃ q : ℚ, mockScore [("0", "React 16.8")] = some q ∧ 0 ≤ q ∧ q ≤ 100)
    ∧ ((∀ p ∈ [("0", "React 16.8")], mockAnswerCounted p.2 = true) →
        mockScore [("0", "React 16.8")] = some 100)
    ∧ ((∀ p ∈ [("0", "React 16.8")], mockAnswerCounted p.2 = false) →
        mockScore [("0", "React 16.8")] = some 0) :=
  mockScore_bounds_and_extremes [("0", "React 16.8")] (by decide)

/-- C2 (counterexample): the mock `submitQuiz` grading is not exact string
equality with the stored correct answers: the submitted answer
`"incorrect"` equals no stored correct answer of the first mock module,
yet the substring heuristic counts it correct and awards a 100% score. -/
theorem mockGrading_not_exact_match :
    mockAnswerCounted "incorrect" = true
    ∧ (∀ q ∈ mockModule1Questions, q.correct_answer ≠ "incorrect")
    ∧ mockScore [("0", "incorrect")] = some 100 := by
  refine ⟨by decide, by decide, ?_⟩
  have h1 : mockCorrectCount [("0", "incorrect")] = 1 := by decide
  norm_num [mockScore, mockTotalQuestions, h1]

/-- C2 (amended): the `LearningPage.handleAnswerSelect` chat-quiz feedback
judges an answer correct exactly when it is string-equal to the stored
correct answer of the question; the old mock `submitQuiz` grading instead
uses a substring heuristic that accepts answers equal to no stored correct
answer. -/
theorem lpIsCorrect_exact_iff (answer : String) (q : QuizQuestion) :
    (lpIsCorrect answer q = true ↔ answer = q.correct_answer)
    ∧ ∃ a : String, mockAnswerCounted a = true
        ∧ ∀ q2 ∈ mockModule1Questions, q2.correct_answer ≠ a := by
  refine ⟨?_, "incorrect", by decide, by decide⟩
  simp [lpIsCorrect]

/-- C2 (witness): the amended statement evaluated at the concrete answer
`"useState"` and the second question of the first mock module. -/
theorem lpIsCorrect_exact_witness :
    ((lpIsCorrect "useState"
        ⟨"Which hook is used for managing component state?",
         ["useEffect", "useState", "useContext", "useReducer"], "useState"⟩ = true
      ↔ "useState" = "useState")
    ∧ ∃ a : String, mockAnswerCounted a = true
        ∧ ∀ q2 ∈ mockModule1Questions, q2.correct_answer ≠ a) :=
  lpIsCorrect_exact_iff "useState"
    ⟨"Which hook is used for managing component state?",
     ["useEffect", "useState", "useContext", "useReducer"], "useState"⟩

/-- C3: on an error response with status 401 the interceptor clears the
stored token and redirects to `/login` while still rejecting the promise;
on any other error (other status, or no response at all) the client state
is untouched and the promise is still rejected; successful responses pass
through unchanged. -/
theorem interceptor_401_logout_redirect (st : ClientState) (e : AxiosError) :
    (∀ r : ErrResponse, e.response = some r → r.status = 401 →
        onResponseError st e =
          ({ authToken := none, location := "/login" }, Except.error e))
    ∧ (e.response.map ErrResponse.status ≠ some 401 →
        onResponseError st e = (st, Except.error e))
    ∧ (∀ r : AxiosResponse, onResponseOk st r = (st, Except.ok r)) := by
  refine ⟨?_, ?_, fun r => rfl⟩
  · intro r hr h401
    simp [onResponseError, logout, hr, h401]
  · intro hne
    simp [onResponseError, hne]

/-- C3 (witness): the interceptor evaluated on a concrete 401 error with a
stored token. -/
theorem interceptor_401_witness :
    onResponseError { authToken := some "tok", location := "/home" }
        { response := some { status := 401, data := none }, message := "Unauthorized" } =
      ({ authToken := none, location := "/login" },
        Except.error
          { response := some { status := 401, data := none }, message := "Unauthorized" }) :=
  (interceptor_401_logout_redirect _ _).1 { status := 401, data := none } rfl rfl

/-- C4 (counterexample): the body sent by the current `generateModule`
carries neither a `difficulty` nor a `duration` key, even when the caller
supplies both. -/
theorem generateModule_payload_drops_fields :
    (generateModuleBody "Python lists" "hard" 45 "some background").lookup "difficulty" = none
    ∧ (generateModuleBody "Python lists" "hard" 45 "some background").lookup "duration" = none := by
  decide

/-- C4 (amended): the current `generateModule` sends exactly
`{prompt, background_knowledge, user_id: null}`, dropping the difficulty
and duration arguments; only the old `apiService.old.js` variant sent
`difficulty` and `duration`. -/
theorem generateModule_payload_fields (p d : String) (du : Int) (bg : String) :
    (generateModuleBody p d du bg).lookup "prompt" = some (JVal.jstr p)
    ∧ (generateModuleBody p d du bg).lookup "background_knowledge" = some (JVal.jstr bg)
    ∧ (generateModuleBody p d du bg).lookup "user_id" = some JVal.jnull
    ∧ (generateModuleBody p d du bg).lookup "difficulty" = none
    ∧ (generateModuleBody p d du bg).lookup "duration" = none
    ∧ ∀ uid : String,
        (generateModuleBodyOld uid p d du).lookup "difficulty" = some (JVal.jstr d)
        ∧ (generateModuleBodyOld uid p d du).lookup "duration" = some (JVal.jnum du) :=
  ⟨rfl, rfl, rfl, rfl, rfl, fun _ => ⟨rfl, rfl⟩⟩

/-- C4 (witness): the amended statement evaluated at a concrete call. -/
theorem generateModule_payload_fields_witness :
    (generateModuleBody "Py" "hard" 45 "bg").lookup "prompt" = some (JVal.jstr "Py") :=
  (generateModule_payload_fields "Py" "hard" 45 "bg").1

/-- C5: one firing of the quiz countdown callback, under the effect guard
(quiz started, time left, not submitted): with more than one second left
it decrements the remaining time by one and submits nothing; with one
second left it sets the time to zero and submits exactly the answers
collected so far (via `handleSubmit`, which marks the quiz submitted); and
in any submitted state the effect guard is false, so no interval is
installed (the effect cleanup has cancelled any previous one). -/
theorem quiz_timer_tick_spec (s : QuizPageState) (h : timerActive s = true) :
    (1 < s.timeLeft →
        timerTick s = ({ s with timeLeft := s.timeLeft - 1 }, none))
    ∧ (s.timeLeft = 1 →
        timerTick s =
          ({ s with timeLeft := 0, submitted := true, quizStarted := false },
            some s.answers))
    ∧ (∀ s2 : QuizPageState, s2.submitted = true → timerActive s2 = false) := by
  refine ⟨?_, ?_, ?_⟩
  · intro hgt
    have hle : ¬s.timeLeft ≤ 1 := by omega
    simp [timerTick, hle]
  · intro heq
    simp [timerTick, handleSubmit, heq]
  · intro s2 hs2
    simp [timerActive, hs2]

/-- C5 (witness): the tick evaluated at a concrete running quiz with one
second left and one collected answer: it auto-submits that answer. -/
theorem quiz_timer_tick_witness :
    (1 < (1 : Nat) →
        timerTick ⟨true, 1, false, [(0, "React 16.8")]⟩ =
          (⟨true, 0, false, [(0, "React 16.8")]⟩, none))
    ∧ ((1 : Nat) = 1 →
        timerTick ⟨true, 1, false, [(0, "React 16.8")]⟩ =
          (⟨false, 0, true, [(0, "React 16.8")]⟩, some [(0, "React 16.8")]))
    ∧ (∀ s2 : QuizPageState, s2.submitted = true → timerActive s2 = false) :=
  quiz_timer_tick_spec ⟨true, 1, false, [(0, "React 16.8")]⟩ rfl

/-- C6: the normalized error object carries the HTTP status (when a
response exists) in `status` and the original error in `originalError`,
and its message is the first truthy value of `response.data.detail`,
`response.data.message`, the transport error message, and the
method-specific default, in that order. -/
theorem handleError_spec (e : AxiosError) (dm : String) :
    ((handleError e dm).status = e.response.map ErrResponse.status)
    ∧ ((handleError e dm).originalError = e)
    ∧ (∀ s : String, respDetail e = some s → s ≠ "" →
        (handleError e dm).message = s)
    ∧ (∀ s : String, (respDetail e = none ∨ respDetail e = some "") →
        respMessage e = some s → s ≠ "" → (handleError e dm).message = s)
    ∧ ((respDetail e = none ∨ respDetail e = some "") →
        (respMessage e = none ∨ respMessage e = some "") →
        e.message ≠ "" → (handleError e dm).message = e.message)
    ∧ ((respDetail e = none ∨ respDetail e = some "") →
        (respMessage e = none ∨ respMessage e = some "") →
        e.message = "" → (handleError e dm).message = dm) := by
  refine ⟨rfl, rfl, ?_, ?_, ?_, ?_⟩
  · intro s hs hne
    simp [handleError, jsSelect, hs, hne]
  · intro s hd hm hne
    rcases hd with hd | hd <;> simp [handleError, jsSelect, hd, hm, hne]
  · intro hd hm hne
    rcases hd with hd | hd <;> rcases hm with hm | hm <;>
      simp [handleError, jsSelect, hd, hm, hne]
  · intro hd hm he
    rcases hd with hd | hd <;> rcases hm with hm | hm <;>
      simp [handleError, jsSelect, hd, hm, he]

/-- C6 (witness): a concrete 500 error whose payload has a `detail` field
normalizes to that detail as the message. -/
theorem handleError_witness :
    (handleError ⟨some ⟨500, some ⟨some "boom", none⟩⟩, "Request failed"⟩
        "Failed to fetch module").message = "boom" :=
  (handleError_spec _ _).2.2.1 "boom" rfl (by decide)

/-- C7: after the delete handler updates the module list, a module is in
the new list exactly when it was in the old list and its id differs from
the deleted id; the new list is a sublist of the old one, so the surviving
modules are unchanged and in their original order. -/
theorem removeModule_spec (modules : List Module) (moduleId : String) :
    (∀ m : Module, m ∈ removeModule modules moduleId ↔
        m ∈ modules ∧ m.id ≠ moduleId)
    ∧ List.Sublist (removeModule modules moduleId) modules := by
  constructor
  · intro m
    simp [removeModule, List.mem_filter]
  · exact List.filter_sublist _

/-- C7 (witness): the delete-update evaluated on a concrete two-module
list. -/
theorem removeModule_witness :
    (∀ m : Module,
        m ∈ removeModule [⟨"1", "A", "ca", "easy"⟩, ⟨"2", "B", "cb", "hard"⟩] "1" ↔
        m ∈ [⟨"1", "A", "ca", "easy"⟩, ⟨"2", "B", "cb", "hard"⟩] ∧ m.id ≠ "1")
    ∧ List.Sublist
        (removeModule [⟨"1", "A", "ca", "easy"⟩, ⟨"2", "B", "cb", "hard"⟩] "1")
        [⟨"1", "A", "ca", "easy"⟩, ⟨"2", "B", "cb", "hard"⟩] :=
  removeModule_spec [⟨"1", "A", "ca", "easy"⟩, ⟨"2", "B", "cb", "hard"⟩] "1"

/-- C8: for every component state whose topic consists only of whitespace
characters (including the empty topic), `createModule` sets the validation
error `Please enter a topic` and issues no generation request. -/
theorem createModule_blank_topic (st : EnhancedState)
    (h : st.topic.toList.all Char.isWhitespace = true) :
    createModule st = ({ st with error := "Please enter a topic" }, none) := by
  simp [createModule, jsTrim_of_all_whitespace st.topic h]

/-- C8 (witness): the validation evaluated at a concrete whitespace-only
topic. -/
theorem createModule_blank_topic_witness :
    createModule { topic := "   ", difficulty := "Beginner", error := "" } =
      ({ topic := "   ", difficulty := "Beginner", error := "Please enter a topic" },
        none) :=
  createModule_blank_topic
    { topic := "   ", difficulty := "Beginner", error := "" } (by decide)

/-- C9: the two client service implementations are not equivalent: the
current `generateModule` body and the `EnhancedModules` body are never
equal; the former carries `prompt` and no `topic`, `difficulty` or
`duration` key, the latter carries `topic` and no `prompt` key; and the
difficulty vocabularies of the two forms (`easy/medium/hard` versus
`Beginner/Intermediate/Advanced`) are disjoint. -/
theorem services_payloads_disagree :
    (∀ (p d : String) (du : Int) (bg t d2 : String),
        generateModuleBody p d du bg ≠ enhancedModuleBody t d2)
    ∧ (∀ t d2 : String,
        (enhancedModuleBody t d2).lookup "topic" = some (JVal.jstr t)
        ∧ (enhancedModuleBody t d2).lookup "prompt" = none)
    ∧ (∀ (p d : String) (du : Int) (bg : String),
        (generateModuleBody p d du bg).lookup "topic" = none)
    ∧ "easy" ∈ dashboardDifficultyOptions
    ∧ "Beginner" ∈ enhancedDifficultyOptions
    ∧ dashboardDifficultyOptions.inter enhancedDifficultyOptions = [] := by
  refine ⟨?_, fun t d2 => ⟨rfl, rfl⟩, fun p d du bg => rfl, by decide, by decide, by decide⟩
  intro p d du bg t d2 h
  have hl := congrArg List.length h
  simp [generateModuleBody, enhancedModuleBody] at hl

/-- C9 (witness): for one concrete user intent ("Python", easiest level)
the two services build different bodies. -/
theorem services_payloads_disagree_witness :
    generateModuleBody "Python" "easy" 30 "" ≠ enhancedModuleBody "Python" "Beginner" :=
  services_payloads_disagree.1 "Python" "easy" 30 "" "Python" "Beginner"

/-- C10: `isAuthenticated` is a total Boolean function of the stored token
and runtime environment — a missing token and the empty token yield
`false` — and it returns `true` only when a token is present, its payload
segment base64-decodes and parses as JSON, and the numeric value of the
payload `exp` field times 1000 is strictly greater than the current
time. -/
theorem isAuthenticated_spec (env : JwtEnv) (stored : Option String) :
    isAuthenticated env none = false
    ∧ isAuthenticated env (some "") = false
    ∧ (isAuthenticated env stored = true →
        ∃ (token seg decoded : String) (payload : JsVal) (n : Int),
          stored = some token ∧ token ≠ ""
          ∧ (jsSplitDot token)[1]? = some seg
          ∧ env.atob seg = some decoded
          ∧ env.parseJson decoded = some payload
          ∧ jsToNumber (jsGet payload "exp") = some n
          ∧ env.now < n * 1000) := by
  refine ⟨rfl, rfl, ?_⟩
  intro h
  cases stored with
  | none => exact absurd h (by simp [isAuthenticated])
  | some token =>
      simp only [isAuthenticated] at h
      by_cases ht : token = ""
      · rw [if_pos ht] at h
        exact absurd h (by simp)
      · rw [if_neg ht] at h
        rcases hseg : (jsSplitDot token)[1]? with _ | seg
        · simp [hseg] at h
        · simp only [hseg] at h
          rcases hdec : env.atob seg with _ | decoded
          · simp [hdec] at h
          · simp only [hdec] at h
            rcases hpar : env.parseJson decoded with _ | payload
            · simp [hpar] at h
            · simp only [hpar] at h
              rcases hnum : jsToNumber (jsGet payload "exp") with _ | n
              · simp [hnum] at h
              · simp only [hnum] at h
                exact ⟨token, seg, decoded, payload, n, rfl, ht, hseg, hdec, hpar,
                  hnum, of_decide_eq_true h⟩

/-- C10 (witness): in the demonstration environment the token `"h.e"`
authenticates, and the spec yields the successful decode chain. -/
theorem isAuthenticated_witness :
    ∃ (token seg decoded : String) (payload : JsVal) (n : Int),
      (some "h.e" : Option String) = some token ∧ token ≠ ""
      ∧ (jsSplitDot token)[1]? = some seg
      ∧ jwtEnvDemo.atob seg = some decoded
      ∧ jwtEnvDemo.parseJson decoded = some payload
      ∧ jsToNumber (jsGet payload "exp") = some n
      ∧ jwtEnvDemo.now < n * 1000 :=
  (isAuthenticated_spec jwtEnvDemo (some "h.e")).2.2 rfl

end GyanForge
